import Mathlib

/-!
# Verification of the PEMDash Multi-Strategy Predictive Control Engine

Shallow embedding of the control-engine code of the PEMDash repository
(`MPCAlgorithms` in the unnamed algorithms file, `NeuralMPC` in
`neural-mpc.js`) together with proofs about the frozen specification
claims.

Modelling conventions:
* JavaScript numbers are modelled as rationals (`ℚ`); the floating-point
  rounding of the source is abstracted away, arithmetic is exact.
* A JavaScript object field that may be absent is modelled as `Option ℚ`.
  A comparison such as `state.temperature > 75` is `false` when the field
  is `undefined`, which `jsGTq`/`jsLTq` reproduce.
* The JavaScript expression `x || d` (used for defaulting) yields `d`
  exactly when `x` is falsy, i.e. absent or `0`; `jsOr` reproduces this.
* A thrown JavaScript exception is modelled with `Except JsRuntimeError`;
  a `try ... catch` block is a `match` on that value.
* Values of `Math.random()` are passed in explicitly as oracle arguments,
  and the wall-clock hour read by `new Date().getHours()` is an explicit
  argument.
* Returned decision objects are modelled with the fields the claims
  inspect (`control`, `algorithm`, optional `cost`).
-/

/-- Type of a JavaScript runtime exception.  The only one the embedded code
can actually raise is the `ReferenceError` produced by the unbound
identifier `parameters` on the terminal-cost line of `evaluateMPCCost`. -/
inductive JsRuntimeError where
  | referenceError
deriving DecidableEq, Repr

/-- Process state as consumed by `MPCAlgorithms`: a JavaScript object whose
fields may each be absent (`none`).  Field order: `production`,
`temperature`, `voltage`, `purity`, `reference`. -/
structure ProcessState where
  production : Option ℚ
  temperature : Option ℚ
  voltage : Option ℚ
  purity : Option ℚ
  reference : Option ℚ
deriving DecidableEq, Repr

/-- JavaScript comparison `field > y` for a possibly-absent numeric field:
`undefined > y` is `false`. -/
def jsGTq (o : Option ℚ) (y : ℚ) : Bool :=
  match o with
  | some x => decide (y < x)
  | none => false

/-- JavaScript comparison `field < y` for a possibly-absent numeric field:
`undefined < y` is `false`. -/
def jsLTq (o : Option ℚ) (y : ℚ) : Bool :=
  match o with
  | some x => decide (x < y)
  | none => false

/-- JavaScript defaulting `x || d` on a possibly-absent numeric field: the
default `d` is taken when the field is absent or `0` (both falsy). -/
def jsOr (o : Option ℚ) (d : ℚ) : ℚ :=
  match o with
  | some x => if x = 0 then d else x
  | none => d

/-- One conditional cap of the constraint filter, the statement
`if (condition) then c = Math.min(c, cap)`. -/
def capIf (b : Bool) (cap x : ℚ) : ℚ :=
  if b then min x cap else x

/-- The four conditional safety rules of `MPCAlgorithms.applyConstraints`,
applied in source order (temperature > 75 caps at 150, temperature > 78 at
120, voltage > 42 at 160, purity < 99.3 at 140), before the absolute
clamp. -/
def constraintRules (control : ℚ) (s : ProcessState) : ℚ :=
  capIf (jsLTq s.purity (993/10)) 140
    (capIf (jsGTq s.voltage 42) 160
      (capIf (jsGTq s.temperature 78) 120
        (capIf (jsGTq s.temperature 75) 150 control)))

/-- Function `MPCAlgorithms.applyConstraints`: the four conditional rules
followed by the absolute clamp to `[MIN_CURRENT = 100, MAX_CURRENT = 200]`. -/
def applyConstraints (control : ℚ) (s : ProcessState) : ℚ :=
  max 100 (min 200 (constraintRules control s))

/-- Function `NeuralMPC.applySafetyConstraints` (from `neural-mpc.js`):
textually the same rule sequence as `applyConstraints`, with the limits
written as the literals 100 and 200. -/
def applySafetyConstraints (control : ℚ) (s : ProcessState) : ℚ :=
  max 100
    (min 200
      (capIf (jsLTq s.purity (993/10)) 140
        (capIf (jsGTq s.voltage 42) 160
          (capIf (jsGTq s.temperature 78) 120
            (capIf (jsGTq s.temperature 75) 150 control)))))

/-- Constant `A_MATRIX` of `modelParameters`. -/
def A_MATRIX : ℚ := 95/100

/-- Constant `B_MATRIX` of `modelParameters`. -/
def B_MATRIX : ℚ := 8/10

/-- Constant `MIN_CURRENT` of `modelParameters`. -/
def MIN_CURRENT : ℚ := 100

/-- Constant `MAX_CURRENT` of `modelParameters`. -/
def MAX_CURRENT : ℚ := 200

/-- Constant `Number.MAX_VALUE`, the initial best cost of the grid
searches. -/
def jsMaxValue : ℚ := 2 ^ 1024 - 2 ^ 971

/-- The strategy parameters destructured by the `MPCAlgorithms` strategies
(only the fields the embedded strategies read). -/
structure MPCParams where
  horizon : ℕ
  qWeight : ℚ
  rWeight : ℚ
  scenarios : ℕ
  uncertaintyLevel : ℚ
deriving DecidableEq, Repr

/-- The parameter defaults of the strategy signatures: `horizon = 10`,
`qWeight = 10.0`, `rWeight = 1.0`, `scenarios = 5`,
`uncertaintyLevel = 0.1`. -/
def defaultMPCParams : MPCParams := ⟨10, 10, 1, 5, 1/10⟩

/-- The `for (let k = 0; k < horizon; k++)` loop of
`MPCAlgorithms.evaluateMPCCost`: rolls `state = A*state + B*control`
forward, adds `q*err*err` each step and `r*control*control` for `k > 0`.
Returns the accumulated cost together with the final predicted state. -/
def mpcCostLoop (s0 control reference : ℚ) (horizon : ℕ) (q r : ℚ) :
    ℚ × ℚ :=
  (List.range horizon).foldl
    (fun acc k =>
      let st := A_MATRIX * acc.2 + B_MATRIX * control
      let err := st - reference
      let c := acc.1 + q * err * err
      ((if 0 < k then c + r * control * control else c), st))
    (0, s0)

/-- Function `MPCAlgorithms.evaluateMPCCost`.  After the loop, the
terminal-cost line reads
`totalCost += parameters.sWeight || 100 * terminalError * terminalError`,
but `parameters` is not bound in the scope of `evaluateMPCCost` (it is not
among its formal parameters, and no enclosing scope defines it), so the
function always throws a `ReferenceError` at that line. -/
def evaluateMPCCost (s : ProcessState) (control reference : ℚ)
    (horizon : ℕ) (q r : ℚ) : Except JsRuntimeError ℚ :=
  let _loop := mpcCostLoop (jsOr s.production 0) control reference horizon q r
  Except.error JsRuntimeError.referenceError

/-- Modelled from the spec: the cost evaluation
`evaluateCost(state, control, reference, horizon, q, r)` as the claim and
the spec describe it — the same accumulation loop, then a terminal penalty
`s*(finalError)^2` with `s` the `sWeight` parameter defaulting to 100.
(The source function `evaluateMPCCost` instead throws at the terminal-cost
line.) -/
def evaluateCostClaim (s : ProcessState) (control reference : ℚ)
    (horizon : ℕ) (q r sWeight : ℚ) : ℚ :=
  let loop := mpcCostLoop (jsOr s.production 0) control reference horizon q r
  loop.1 + sWeight * (loop.2 - reference) * (loop.2 - reference)

/-- The grid points visited by `DeterministicMPC`: `u` from `MIN_CURRENT`
to `MAX_CURRENT` in steps of `(MAX_CURRENT - MIN_CURRENT)/20 = 5`,
endpoints included — 21 points, exact in the source since all the values
involved are small integers. -/
def detGridPoints : List ℚ :=
  (List.range 21).map (fun i => MIN_CURRENT + (MAX_CURRENT - MIN_CURRENT) / 20 * i)

/-- The grid-search loop of `DeterministicMPC`: starts from
`(previousControl, Number.MAX_VALUE)` and keeps the strictly better cost
(`cost < minCost`), so ties keep the earlier (lower-current) point.  Each
cost evaluation may throw, which aborts the loop. -/
def detGridSearch (s : ProcessState) (reference previousControl : ℚ)
    (p : MPCParams) : Except JsRuntimeError (ℚ × ℚ) :=
  detGridPoints.foldlM
    (fun best u => do
      let cost ← evaluateMPCCost s u reference p.horizon p.qWeight p.rWeight
      pure (if cost < best.2 then (u, cost) else best))
    (previousControl, jsMaxValue)

/-- The control decision object; only the fields the claims inspect are
modelled (`control`, `algorithm`, and the optional `cost`). -/
structure ControlDecision where
  control : ℚ
  algorithm : String
  cost : Option ℚ
deriving DecidableEq, Repr

/-- Function `MPCAlgorithms.fallbackControl`: proportional control
`previousControl + 0.5 * ((state.reference || 50) - (state.production || 0))`
followed by `applyConstraints`; the returned object carries
`algorithm: FALLBACK` and no `cost` field. -/
def fallbackControl (s : ProcessState) (previousControl : ℚ) :
    ControlDecision :=
  let err := jsOr s.reference 50 - jsOr s.production 0
  ⟨applyConstraints (previousControl + (1/2) * err) s, "FALLBACK", none⟩

/-- Function `MPCAlgorithms.DeterministicMPC`: grid search, then
`applyConstraints`; any exception raised inside the `try` block (in
particular the `ReferenceError` of `evaluateMPCCost`) is caught and
answered with `fallbackControl(currentState, previousControl)`. -/
def DeterministicMPC (s : ProcessState) (reference previousControl : ℚ)
    (p : MPCParams) : ControlDecision :=
  match detGridSearch s reference previousControl p with
  | Except.ok best => ⟨applyConstraints best.1 s, "DETERMINISTIC", some best.2⟩
  | Except.error _ => fallbackControl s previousControl

/-- Function `MPCAlgorithms.addUncertainty` on a state object (the two
`Math.random()` draws are the explicit oracle arguments `r1`, `r2`):
`production` becomes `p + (r1 - 0.5)*2*level*p` when truthy and `0`
otherwise; `temperature` becomes `t + (r2 - 0.5)*2*level` when truthy and
`65` otherwise; the other fields are spread through unchanged. -/
def addUncertaintyState (r1 r2 level : ℚ) (s : ProcessState) : ProcessState :=
  ⟨some (match s.production with
         | some p => if p = 0 then 0 else p + (r1 - 1/2) * 2 * level * p
         | none => 0),
   some (match s.temperature with
         | some t => if t = 0 then 65 else t + (r2 - 1/2) * 2 * level
         | none => 65),
   s.voltage, s.purity, s.reference⟩

/-- Function `MPCAlgorithms.applyRobustnessMargin`: subtracts fixed margins
for adverse conditions (temperature > 75: −10, purity < 99.3: −5,
voltage > 42: −8) and clamps to `[MIN_CURRENT, MAX_CURRENT]`. -/
def applyRobustnessMargin (control : ℚ) (s : ProcessState) : ℚ :=
  let m1 : ℚ := if jsGTq s.temperature 75 then -10 else 0
  let m2 : ℚ := if jsLTq s.purity (993/10) then m1 - 5 else m1
  let m3 : ℚ := if jsGTq s.voltage 42 then m2 - 8 else m2
  max MIN_CURRENT (min MAX_CURRENT (control + m3))

/-- Function `MPCAlgorithms.StochasticMPC`: for each of `p.scenarios`
scenarios, perturbs the state with `addUncertainty` (random draws supplied
by the oracle `rands`) and runs `DeterministicMPC` on it; averages the
scenario controls and applies `applyRobustnessMargin` against the original
state.  `DeterministicMPC` never throws (it catches internally), so the
`try` block of `StochasticMPC` completes and the decision carries
`algorithm: STOCHASTIC` and no `cost` field. -/
def StochasticMPC (rands : ℕ → ℚ × ℚ) (s : ProcessState)
    (reference previousControl : ℚ) (p : MPCParams) : ControlDecision :=
  let scenarioControls :=
    (List.range p.scenarios).map (fun i =>
      (DeterministicMPC
        (addUncertaintyState (rands i).1 (rands i).2 p.uncertaintyLevel s)
        reference previousControl p).control)
  let robustControl := scenarioControls.sum / (p.scenarios : ℚ)
  ⟨applyRobustnessMargin robustControl s, "STOCHASTIC", none⟩

/-- Function `MPCAlgorithms.upperLayerEconomicOptimization`, with the
wall-clock `new Date().getHours()` passed in explicitly as `hour`:
time-of-day adjustment (+0.1 for hours 0–5, −0.1 for hours 18–23), state
penalties (temperature > 75: −0.05, purity < 99.3: −0.1), then
`max(0, min(100, reference * (1 + adjustment)))`.  No emergency flag or
context object is consulted anywhere in the function. -/
def upperLayerEconomicOptimization (hour : ℕ) (s : ProcessState)
    (reference : ℚ) : ℚ :=
  let adj1 : ℚ := if hour < 6 then 1/10
                  else if 18 ≤ hour ∧ hour < 24 then -(1/10) else 0
  let adj2 : ℚ := if jsGTq s.temperature 75 then adj1 - 1/20 else adj1
  let adj3 : ℚ := if jsLTq s.purity (993/10) then adj2 - 1/10 else adj2
  max 0 (min 100 (reference * (1 + adj3)))

/-- The raw parameter object handed to `MPCAlgorithms.validateParameters`;
each field may be absent. -/
structure RawParams where
  horizon : Option ℚ
  qWeight : Option ℚ
  rWeight : Option ℚ
deriving DecidableEq, Repr

/-- Function `MPCAlgorithms.validateParameters`: returns the list of error
messages.  Each guard has the form `parameters.field && (bad condition)`,
so a field that is absent or `0` (falsy) is never flagged, whatever the
condition says; and the function only returns the list — nothing in the
source raises an exception from it. -/
def validateParameters (p : RawParams) : List String :=
  (match p.horizon with
   | some h =>
     if h ≠ 0 ∧ (h < 1 ∨ 50 < h) then ["Horizon must be between 1 and 50"]
     else []
   | none => []) ++
  (match p.qWeight with
   | some q => if q ≠ 0 ∧ q ≤ 0 then ["Q weight must be positive"] else []
   | none => []) ++
  (match p.rWeight with
   | some r => if r ≠ 0 ∧ r ≤ 0 then ["R weight must be positive"] else []
   | none => [])

/-- Input object of `NeuralMPC.predict` and `NeuralMPC.normalizeInput`; on
this path all six fields are present (the caller `computeControl` defaults
them before the call). -/
structure NNInput where
  production : ℚ
  temperature : ℚ
  voltage : ℚ
  current : ℚ
  purity : ℚ
  reference : ℚ
deriving DecidableEq, Repr

/-- The clamp `Math.max(0, Math.min(1, x))` applied to every normalized
feature. -/
def clamp01 (x : ℚ) : ℚ := max 0 (min 1 x)

/-- Function `NeuralMPC.normalizeInput`: the six normalized process
features, each clamped to `[0, 1]`.  This matches
`networkConfig.inputSize = 6`; no context features appear anywhere in
`neural-mpc.js`. -/
def normalizeInput (i : NNInput) : List ℚ :=
  [i.production / (5/100),
   (i.temperature - 60) / 20,
   (i.voltage - 35) / 10,
   (i.current - 100) / 100,
   (i.purity - 99) / 1,
   i.reference / 100].map clamp01

/-- The exogenous context record named by the spec (electricity tariff,
solar irradiance, oxygen demand, hour of day). -/
structure ContextInfo where
  electricityCost : ℚ
  solarIrradiance : ℚ
  o2Demand : ℚ
  hourOfDay : ℚ
deriving DecidableEq, Repr

/-- Modelled from the spec: the predictor input vector as the claim
describes it — the six normalized process features concatenated with the
four normalized context features, every component clamped to `[0, 1]`.
To be compared against the source function `normalizeInput`. -/
def enhancedInputClaim (i : NNInput) (c : ContextInfo) : List ℚ :=
  ([i.production / (5/100),
    (i.temperature - 60) / 20,
    (i.voltage - 35) / 10,
    (i.current - 100) / 100,
    (i.purity - 99) / 1,
    i.reference / 100] ++
   [c.electricityCost / 25,
    c.solarIrradiance / 1000,
    c.o2Demand / 200,
    c.hourOfDay / 24]).map clamp01

/-! ### Concrete inputs used by counterexamples and witnesses -/

/-- Benign process state: production 0.03, temperature 70, voltage 38,
purity 99.5, no `reference` field. -/
def stateBenign : ProcessState := ⟨some (3/100), some 70, some 38, some (199/2), none⟩

/-- Hot process state: like `stateBenign` but temperature 80. -/
def stateHot : ProcessState := ⟨some (3/100), some 80, some 38, some (199/2), none⟩

/-- Process state violating every conditional rule: temperature 80,
voltage 43, purity 99. -/
def stateAdverse : ProcessState := ⟨some (3/100), some 80, some 43, some 99, none⟩

/-- Process state with production 10 and no other fields. -/
def stateProdTen : ProcessState := ⟨some 10, none, none, none, none⟩

/-- Process state with every field absent. -/
def stateNoFields : ProcessState := ⟨none, none, none, none, none⟩

/-- Strategy parameters with `uncertaintyLevel = 0` and the other
defaults. -/
def paramsNoUncertainty : MPCParams := ⟨10, 10, 1, 5, 0⟩

/-- A constant random oracle. -/
def randsZero : ℕ → ℚ × ℚ := fun _ => (0, 0)

/-- Neural input sample: production 0.03, temperature 70, voltage 38,
current 150, purity 99.5, reference 50. -/
def nnInputSample : NNInput := ⟨3/100, 70, 38, 150, 199/2, 50⟩

/-- Context sample: cost 20, irradiance 500, demand 100, hour 12. -/
def ctxSample : ContextInfo := ⟨20, 500, 100, 12⟩

/-- Raw parameters that are all zero (falsy). -/
def rawParamsZero : RawParams := ⟨some 0, some 0, some 0⟩

/-- Raw parameters that are all nonzero and invalid: horizon 60,
qWeight −1, rWeight −2. -/
def rawParamsBad : RawParams := ⟨some 60, some (-1), some (-2)⟩

/-! ## Helper lemmas about the constraint filter -/

/-- A conditional cap never increases the value. -/
theorem capIf_le_self (b : Bool) (cap x : ℚ) : capIf b cap x ≤ x := by
  unfold capIf
  cases b with
  | false => simp
  | true => simp [min_le_left]

/-- When the cap is active, the result is at most the cap. -/
theorem capIf_le_cap (cap x : ℚ) : capIf true cap x ≤ cap := by
  simp [capIf]

/-- A cap at or above the value leaves it unchanged. -/
theorem capIf_eq_of_le (b : Bool) {cap x : ℚ} (h : x ≤ cap) :
    capIf b cap x = x := by
  unfold capIf
  cases b <;> simp [min_eq_left h]

/-- A conditional cap whose bound is respected whenever it fires is the
identity. -/
theorem capIf_eq_self (b : Bool) (cap x : ℚ) (h : b = true → x ≤ cap) :
    capIf b cap x = x := by
  cases b with
  | false => simp [capIf]
  | true => exact capIf_eq_of_le true (h rfl)

theorem constraintRules_le_self (c : ℚ) (s : ProcessState) :
    constraintRules c s ≤ c := by
  unfold constraintRules
  calc capIf (jsLTq s.purity (993/10)) 140
        (capIf (jsGTq s.voltage 42) 160
          (capIf (jsGTq s.temperature 78) 120
            (capIf (jsGTq s.temperature 75) 150 c)))
      ≤ capIf (jsGTq s.voltage 42) 160
          (capIf (jsGTq s.temperature 78) 120
            (capIf (jsGTq s.temperature 75) 150 c)) := capIf_le_self ..
    _ ≤ capIf (jsGTq s.temperature 78) 120
          (capIf (jsGTq s.temperature 75) 150 c) := capIf_le_self ..
    _ ≤ capIf (jsGTq s.temperature 75) 150 c := capIf_le_self ..
    _ ≤ c := capIf_le_self ..

theorem constraintRules_le_150 (c : ℚ) (s : ProcessState)
    (h : jsGTq s.temperature 75 = true) : constraintRules c s ≤ 150 := by
  unfold constraintRules
  rw [h]
  calc capIf (jsLTq s.purity (993/10)) 140
        (capIf (jsGTq s.voltage 42) 160
          (capIf (jsGTq s.temperature 78) 120 (capIf true 150 c)))
      ≤ capIf (jsGTq s.voltage 42) 160
          (capIf (jsGTq s.temperature 78) 120 (capIf true 150 c)) :=
        capIf_le_self ..
    _ ≤ capIf (jsGTq s.temperature 78) 120 (capIf true 150 c) :=
        capIf_le_self ..
    _ ≤ capIf true 150 c := capIf_le_self ..
    _ ≤ 150 := capIf_le_cap ..

theorem constraintRules_le_120 (c : ℚ) (s : ProcessState)
    (h : jsGTq s.temperature 78 = true) : constraintRules c s ≤ 120 := by
  unfold constraintRules
  rw [h]
  calc capIf (jsLTq s.purity (993/10)) 140
        (capIf (jsGTq s.voltage 42) 160
          (capIf true 120 (capIf (jsGTq s.temperature 75) 150 c)))
      ≤ capIf (jsGTq s.voltage 42) 160
          (capIf true 120 (capIf (jsGTq s.temperature 75) 150 c)) :=
        capIf_le_self ..
    _ ≤ capIf true 120 (capIf (jsGTq s.temperature 75) 150 c) :=
        capIf_le_self ..
    _ ≤ 120 := capIf_le_cap ..

theorem constraintRules_le_160 (c : ℚ) (s : ProcessState)
    (h : jsGTq s.voltage 42 = true) : constraintRules c s ≤ 160 := by
  unfold constraintRules
  rw [h]
  calc capIf (jsLTq s.purity (993/10)) 140
        (capIf true 160
          (capIf (jsGTq s.temperature 78) 120
            (capIf (jsGTq s.temperature 75) 150 c)))
      ≤ capIf true 160
          (capIf (jsGTq s.temperature 78) 120
            (capIf (jsGTq s.temperature 75) 150 c)) := capIf_le_self ..
    _ ≤ 160 := capIf_le_cap ..

theorem constraintRules_le_140 (c : ℚ) (s : ProcessState)
    (h : jsLTq s.purity (993/10) = true) : constraintRules c s ≤ 140 := by
  unfold constraintRules
  rw [h]
  exact capIf_le_cap ..

theorem applyConstraints_lb (c : ℚ) (s : ProcessState) :
    100 ≤ applyConstraints c s := le_max_left ..

theorem applyConstraints_ub (c : ℚ) (s : ProcessState) :
    applyConstraints c s ≤ 200 := by
  unfold applyConstraints
  exact max_le (by norm_num) (min_le_left ..)

/-- The clamp keeps any bound of at least 100 that the rule stage already
established. -/
theorem clamp_le_of_le {r cap : ℚ} (hcap : 100 ≤ cap) (h : r ≤ cap) :
    max 100 (min 200 r) ≤ cap :=
  max_le hcap (le_trans (min_le_right ..) h)

theorem applyConstraints_le_150 (c : ℚ) (s : ProcessState)
    (h : jsGTq s.temperature 75 = true) : applyConstraints c s ≤ 150 :=
  clamp_le_of_le (by norm_num) (constraintRules_le_150 c s h)

theorem applyConstraints_le_120 (c : ℚ) (s : ProcessState)
    (h : jsGTq s.temperature 78 = true) : applyConstraints c s ≤ 120 :=
  clamp_le_of_le (by norm_num) (constraintRules_le_120 c s h)

theorem applyConstraints_le_160 (c : ℚ) (s : ProcessState)
    (h : jsGTq s.voltage 42 = true) : applyConstraints c s ≤ 160 :=
  clamp_le_of_le (by norm_num) (constraintRules_le_160 c s h)

theorem applyConstraints_le_140 (c : ℚ) (s : ProcessState)
    (h : jsLTq s.purity (993/10) = true) : applyConstraints c s ≤ 140 :=
  clamp_le_of_le (by norm_num) (constraintRules_le_140 c s h)

/-! ## Helper lemmas about the strategies -/

/-- Since `evaluateMPCCost` throws on its first evaluation, the grid search
of `DeterministicMPC` always aborts and the strategy always answers with
the fallback decision. -/
theorem deterministic_eq_fallback (s : ProcessState)
    (reference previousControl : ℚ) (p : MPCParams) :
    DeterministicMPC s reference previousControl p =
      fallbackControl s previousControl := rfl

/-- With every conditional rule inactive the filter is the bare clamp. -/
theorem applyConstraints_no_caps (x : ℚ) {s : ProcessState}
    (h75 : jsGTq s.temperature 75 = false)
    (h78 : jsGTq s.temperature 78 = false)
    (hvo : jsGTq s.voltage 42 = false)
    (hpu : jsLTq s.purity (993/10) = false) :
    applyConstraints x s = max 100 (min 200 x) := by
  unfold applyConstraints constraintRules
  rw [h75, h78, hvo, hpu]
  simp [capIf]

/-- An inactive strict upper comparison stays inactive at a larger bound. -/
theorem jsGTq_false_of_le {o : Option ℚ} {a b : ℚ} (hab : a ≤ b)
    (h : jsGTq o a = false) : jsGTq o b = false := by
  cases o with
  | none => rfl
  | some x =>
    have hx : ¬ a < x := by simpa [jsGTq] using h
    simp only [jsGTq, decide_eq_false_iff_not]
    exact fun hbx => hx (lt_of_le_of_lt hab hbx)

/-- At `uncertaintyLevel = 0` the perturbed production defaults exactly as
the original production does. -/
theorem addUncertaintyState_zero_production (r1 r2 : ℚ) (s : ProcessState) :
    jsOr (addUncertaintyState r1 r2 0 s).production 0 = jsOr s.production 0 := by
  unfold addUncertaintyState
  cases hsp : s.production with
  | none => simp [jsOr]
  | some p =>
    by_cases h0 : p = 0
    · simp [jsOr, h0]
    · simp [jsOr, h0, mul_zero, zero_mul, add_zero]

/-- At `uncertaintyLevel = 0` a state whose temperature check is inactive
keeps an inactive temperature check after perturbation (an absent or zero
temperature becomes the default 65). -/
theorem addUncertaintyState_cool (r1 r2 : ℚ) (s : ProcessState)
    (ht : jsGTq s.temperature 75 = false) :
    jsGTq (addUncertaintyState r1 r2 0 s).temperature 75 = false := by
  unfold addUncertaintyState
  cases hst : s.temperature with
  | none => norm_num [jsGTq]
  | some t =>
    have h75 : ¬ (75:ℚ) < t := by simpa [jsGTq, hst] using ht
    by_cases h0 : t = 0
    · norm_num [jsGTq, h0]
    · simp only [jsGTq, h0, if_false, mul_zero, add_zero,
        decide_eq_false_iff_not]
      exact h75

/-- The fallback control is insensitive to a zero-uncertainty perturbation
of a state none of whose conditional caps is active. -/
theorem fallbackControl_uncertain_benign (r1 r2 : ℚ) (s : ProcessState)
    (prev : ℚ)
    (ht : jsGTq s.temperature 75 = false)
    (hp : jsLTq s.purity (993/10) = false)
    (hv : jsGTq s.voltage 42 = false) :
    (fallbackControl (addUncertaintyState r1 r2 0 s) prev).control =
      (fallbackControl s prev).control := by
  have hprod := addUncertaintyState_zero_production r1 r2 s
  have ht75 := addUncertaintyState_cool r1 r2 s ht
  have ht78 : jsGTq (addUncertaintyState r1 r2 0 s).temperature 78 = false :=
    jsGTq_false_of_le (by norm_num) ht75
  have hs78 : jsGTq s.temperature 78 = false :=
    jsGTq_false_of_le (by norm_num) ht
  have hre : (addUncertaintyState r1 r2 0 s).reference = s.reference := rfl
  show applyConstraints
      (prev + (1/2) * (jsOr (addUncertaintyState r1 r2 0 s).reference 50 -
        jsOr (addUncertaintyState r1 r2 0 s).production 0))
      (addUncertaintyState r1 r2 0 s) =
    applyConstraints
      (prev + (1/2) * (jsOr s.reference 50 - jsOr s.production 0)) s
  rw [hre, hprod, applyConstraints_no_caps _ ht75 ht78 hv hp,
    applyConstraints_no_caps _ ht hs78 hv hp]

/-- The robustness margin is the identity on an in-bounds control over a
state none of whose adverse conditions holds. -/
theorem applyRobustnessMargin_benign (x : ℚ) (s : ProcessState)
    (ht : jsGTq s.temperature 75 = false)
    (hp : jsLTq s.purity (993/10) = false)
    (hv : jsGTq s.voltage 42 = false)
    (hlb : 100 ≤ x) (hub : x ≤ 200) :
    applyRobustnessMargin x s = x := by
  unfold applyRobustnessMargin
  rw [ht, hp, hv]
  simp only [Bool.false_eq_true, if_false, add_zero, MIN_CURRENT, MAX_CURRENT]
  rw [min_eq_right hub, max_eq_right hlb]

/-- The bounds `[0, 1]` of the feature clamp. -/
theorem clamp01_bounds (x : ℚ) : 0 ≤ clamp01 x ∧ clamp01 x ≤ 1 :=
  ⟨le_max_left .., max_le (by norm_num) (min_le_left ..)⟩

/-! ## Claim theorems -/

/-- Claim C1: for every state and proposed control, the constraint filter
returns a value within `[100, 200]`; each conditional rule only tightens
the bound (temperature > 75 caps at 150, temperature > 78 at 120,
voltage > 42 at 160, purity < 99.3 at 140) before the absolute clamp to
`[MIN_CURRENT = 100, MAX_CURRENT = 200]`. -/
theorem constraintFilter_bounds_and_caps : ∀ (c : ℚ) (s : ProcessState),
    (100 ≤ applyConstraints c s ∧ applyConstraints c s ≤ 200) ∧
    constraintRules c s ≤ c ∧
    (jsGTq s.temperature 75 = true → constraintRules c s ≤ 150) ∧
    (jsGTq s.temperature 78 = true → constraintRules c s ≤ 120) ∧
    (jsGTq s.voltage 42 = true → constraintRules c s ≤ 160) ∧
    (jsLTq s.purity (993/10) = true → constraintRules c s ≤ 140) ∧
    applyConstraints c s = max 100 (min 200 (constraintRules c s)) :=
  fun c s =>
    ⟨⟨applyConstraints_lb c s, applyConstraints_ub c s⟩,
     constraintRules_le_self c s,
     constraintRules_le_150 c s,
     constraintRules_le_120 c s,
     constraintRules_le_160 c s,
     constraintRules_le_140 c s,
     rfl⟩

/-- Witness for claim C1 at control 300 over a state with every rule
active. -/
theorem constraintFilter_bounds_and_caps_w :
    (100 ≤ applyConstraints 300 stateAdverse ∧
      applyConstraints 300 stateAdverse ≤ 200) ∧
    constraintRules 300 stateAdverse ≤ 300 ∧
    constraintRules 300 stateAdverse ≤ 150 ∧
    constraintRules 300 stateAdverse ≤ 120 ∧
    constraintRules 300 stateAdverse ≤ 160 ∧
    constraintRules 300 stateAdverse ≤ 140 :=
  ⟨(constraintFilter_bounds_and_caps 300 stateAdverse).1,
   (constraintFilter_bounds_and_caps 300 stateAdverse).2.1,
   (constraintFilter_bounds_and_caps 300 stateAdverse).2.2.1
     (by norm_num [jsGTq, stateAdverse]),
   (constraintFilter_bounds_and_caps 300 stateAdverse).2.2.2.1
     (by norm_num [jsGTq, stateAdverse]),
   (constraintFilter_bounds_and_caps 300 stateAdverse).2.2.2.2.1
     (by norm_num [jsGTq, stateAdverse]),
   (constraintFilter_bounds_and_caps 300 stateAdverse).2.2.2.2.2.1
     (by norm_num [jsLTq, stateAdverse])⟩

/-- Claim C2, counterexample: the fallback decision does not use the
strategy's `reference` argument.  At a state whose `reference` field is
absent, with production 10, engine reference 200 and previous control 120,
the raising strategy answers 140 while the claimed formula
`previousControl + 0.5*(reference - currentProduction)` filtered gives
200. -/
theorem fallback_reference_argument_cex :
    (DeterministicMPC stateProdTen 200 120 defaultMPCParams).control ≠
      applyConstraints
        (120 + (1/2) * (200 - jsOr stateProdTen.production 0))
        stateProdTen := by
  rw [deterministic_eq_fallback]
  norm_num [fallbackControl, applyConstraints, constraintRules, capIf,
    jsOr, jsGTq, jsLTq, stateProdTen, min_def, max_def]

/-- Claim C2, amended: whenever a strategy raises internally (which
`DeterministicMPC` always does, its cost evaluation throwing), the engine
returns a decision — never the exception — whose control equals
`previousControl + 0.5*((state.reference || 50) - (state.production || 0))`
passed through the constraint filter, hence within `[100, 200]`, and whose
strategy identifier is `FALLBACK`; the strategy's own `reference` argument
is not consulted by the fallback. -/
theorem fallback_decision_amended (s : ProcessState)
    (reference previousControl : ℚ) (p : MPCParams) :
    DeterministicMPC s reference previousControl p =
      fallbackControl s previousControl ∧
    (DeterministicMPC s reference previousControl p).algorithm = "FALLBACK" ∧
    (DeterministicMPC s reference previousControl p).control =
      applyConstraints
        (previousControl +
          (1/2) * (jsOr s.reference 50 - jsOr s.production 0)) s ∧
    100 ≤ (DeterministicMPC s reference previousControl p).control ∧
    (DeterministicMPC s reference previousControl p).control ≤ 200 := by
  refine ⟨rfl, rfl, rfl, ?_, ?_⟩
  · exact applyConstraints_lb
      (previousControl + (1/2) * (jsOr s.reference 50 - jsOr s.production 0)) s
  · exact applyConstraints_ub
      (previousControl + (1/2) * (jsOr s.reference 50 - jsOr s.production 0)) s

/-- Claim C3: the grid search of `DeterministicMPC` never completes — the
very first cost evaluation throws the `ReferenceError`, the `catch`
answers with the fallback decision, and the returned decision carries no
`cost` value at all, so no grid-optimality property can hold of it. -/
theorem deterministicMPC_grid_never_runs :
    detGridSearch stateBenign 50 150 defaultMPCParams =
      Except.error JsRuntimeError.referenceError ∧
    DeterministicMPC stateBenign 50 150 defaultMPCParams =
      fallbackControl stateBenign 150 ∧
    (DeterministicMPC stateBenign 50 150 defaultMPCParams).algorithm =
      "FALLBACK" ∧
    (DeterministicMPC stateBenign 50 150 defaultMPCParams).cost = none :=
  ⟨rfl, rfl, rfl, rfl⟩

/-- Claim C4: the shared cost evaluation never returns the accumulated
value — for every input it throws the `ReferenceError` caused by the
unbound identifier `parameters` on the terminal-cost line, instead of
returning the claimed loop total plus terminal penalty. -/
theorem evaluateMPCCost_always_throws :
    ∀ (s : ProcessState) (control reference : ℚ) (horizon : ℕ) (q r : ℚ),
      evaluateMPCCost s control reference horizon q r =
        Except.error JsRuntimeError.referenceError :=
  fun _ _ _ _ _ _ => rfl

/-- Claim C9: on a state whose `temperature`, `voltage` and `purity` fields
are all absent (as on the NEURAL path, whose states carry
`cellTemperature`, `stackVoltage` and `o2Purity` instead), the neural
safety filter is exactly `max(100, min(200, control))`: no conditional cap
ever binds. -/
theorem applySafetyConstraints_absent_fields (c : ℚ) (s : ProcessState)
    (ht : s.temperature = none) (hv : s.voltage = none)
    (hp : s.purity = none) :
    applySafetyConstraints c s = max 100 (min 200 c) := by
  simp [applySafetyConstraints, ht, hv, hp, jsGTq, jsLTq, capIf]

/-- Witness for claim C9 at control 250 over the field-free state. -/
theorem applySafetyConstraints_absent_fields_w :
    applySafetyConstraints 250 stateNoFields = max 100 (min 200 250) :=
  applySafetyConstraints_absent_fields 250 stateNoFields rfl rfl rfl

/-- Claim C10: the constraint filter is idempotent. -/
theorem applyConstraints_idempotent (c : ℚ) (s : ProcessState) :
    applyConstraints (applyConstraints c s) s = applyConstraints c s := by
  have h1 : capIf (jsGTq s.temperature 75) 150 (applyConstraints c s) =
      applyConstraints c s :=
    capIf_eq_self _ _ _ (fun hb => applyConstraints_le_150 c s hb)
  have h2 : capIf (jsGTq s.temperature 78) 120 (applyConstraints c s) =
      applyConstraints c s :=
    capIf_eq_self _ _ _ (fun hb => applyConstraints_le_120 c s hb)
  have h3 : capIf (jsGTq s.voltage 42) 160 (applyConstraints c s) =
      applyConstraints c s :=
    capIf_eq_self _ _ _ (fun hb => applyConstraints_le_160 c s hb)
  have h4 : capIf (jsLTq s.purity (993/10)) 140 (applyConstraints c s) =
      applyConstraints c s :=
    capIf_eq_self _ _ _ (fun hb => applyConstraints_le_140 c s hb)
  show max 100 (min 200 (constraintRules (applyConstraints c s) s)) =
    applyConstraints c s
  unfold constraintRules
  rw [h1, h2, h3, h4, min_eq_right (applyConstraints_ub c s),
    max_eq_right (applyConstraints_lb c s)]

/-- Claim C5, counterexample: at `uncertaintyLevel = 0` over a hot state
(temperature 80) the stochastic strategy still applies the robustness
margin after averaging, so its control differs from the deterministic
one. -/
theorem stochastic_zero_uncertainty_cex :
    (StochasticMPC randsZero stateHot 50 180 paramsNoUncertainty).control ≠
      (DeterministicMPC stateHot 50 180 paramsNoUncertainty).control := by
  have hr : List.range 5 = [0, 1, 2, 3, 4] := rfl
  rw [deterministic_eq_fallback]
  simp only [StochasticMPC, paramsNoUncertainty, randsZero,
    deterministic_eq_fallback, hr, List.map_cons, List.map_nil,
    List.sum_cons, List.sum_nil]
  norm_num [fallbackControl, addUncertaintyState, applyRobustnessMargin,
    applyConstraints, constraintRules, capIf, jsOr, jsGTq, jsLTq, stateHot,
    MIN_CURRENT, MAX_CURRENT, min_def, max_def]

/-- Claim C5, amended: with `uncertaintyLevel = 0`, a positive scenario
count, and a state none of whose adverse conditions (temperature > 75,
purity < 99.3, voltage > 42) holds — so that the robustness margin of the
stochastic strategy vanishes — `StochasticMPC` returns the same control
value as `DeterministicMPC` on the same inputs; over adverse states the
two differ by the margin. -/
theorem stochastic_zero_uncertainty_benign (rands : ℕ → ℚ × ℚ)
    (s : ProcessState) (reference previousControl : ℚ) (p : MPCParams)
    (hu : p.uncertaintyLevel = 0) (hn : 0 < p.scenarios)
    (ht : jsGTq s.temperature 75 = false)
    (hp : jsLTq s.purity (993/10) = false)
    (hv : jsGTq s.voltage 42 = false) :
    (StochasticMPC rands s reference previousControl p).control =
      (DeterministicMPC s reference previousControl p).control := by
  have hlb : 100 ≤ (DeterministicMPC s reference previousControl p).control := by
    rw [deterministic_eq_fallback]
    exact applyConstraints_lb _ s
  have hub : (DeterministicMPC s reference previousControl p).control ≤ 200 := by
    rw [deterministic_eq_fallback]
    exact applyConstraints_ub _ s
  have hctl : (StochasticMPC rands s reference previousControl p).control =
      applyRobustnessMargin
        (((List.range p.scenarios).map (fun i =>
            (DeterministicMPC
              (addUncertaintyState (rands i).1 (rands i).2
                p.uncertaintyLevel s)
              reference previousControl p).control)).sum /
          (p.scenarios : ℚ)) s := rfl
  have hmem : ∀ c ∈ (List.range p.scenarios).map (fun i =>
      (DeterministicMPC
        (addUncertaintyState (rands i).1 (rands i).2 p.uncertaintyLevel s)
        reference previousControl p).control),
      c = (DeterministicMPC s reference previousControl p).control := by
    intro c hc
    rcases List.mem_map.mp hc with ⟨i, -, rfl⟩
    rw [hu, deterministic_eq_fallback, deterministic_eq_fallback]
    exact fallbackControl_uncertain_benign (rands i).1 (rands i).2 s
      previousControl ht hp hv
  have hconst := List.eq_replicate_of_mem hmem
  rw [List.length_map, List.length_range] at hconst
  rw [hctl, hconst, List.sum_replicate, nsmul_eq_mul,
    mul_div_cancel_left₀ _ (Nat.cast_ne_zero.mpr hn.ne'),
    applyRobustnessMargin_benign _ s ht hp hv hlb hub]

/-- Witness for the amended claim C5 over the benign state. -/
theorem stochastic_zero_uncertainty_benign_w :
    (StochasticMPC randsZero stateBenign 50 150 paramsNoUncertainty).control =
      (DeterministicMPC stateBenign 50 150 paramsNoUncertainty).control :=
  stochastic_zero_uncertainty_benign randsZero stateBenign 50 150
    paramsNoUncertainty rfl (by decide)
    (by norm_num [jsGTq, stateBenign])
    (by norm_num [jsLTq, stateBenign])
    (by norm_num [jsGTq, stateBenign])

/-- Claim C6, counterexample: the upper economic layer consults no
emergency flag at all; at reference 100, hour 19 and a state with no
penalty fields the setpoint resolves to 90, not 100, whatever any context
says. -/
theorem economic_setpoint_no_emergency_cex :
    upperLayerEconomicOptimization 19 stateNoFields 100 = 90 ∧
    upperLayerEconomicOptimization 19 stateNoFields 100 ≠ 100 := by
  norm_num [upperLayerEconomicOptimization, stateNoFields, jsGTq, jsLTq,
    min_def, max_def]

/-- Claim C6, amended: the upper economic layer has no emergency override;
for reference 100 the setpoint resolves to 100 exactly when the
accumulated adjustment is nonnegative — in particular for every hour
before 18 over a state with temperature at most 75 (or absent) and purity
at least 99.3 (or absent); during evening hours it resolves to 90
instead. -/
theorem economic_setpoint_daytime_benign (hour : ℕ) (s : ProcessState)
    (hh : hour < 18)
    (ht : jsGTq s.temperature 75 = false)
    (hp : jsLTq s.purity (993/10) = false) :
    upperLayerEconomicOptimization hour s 100 = 100 := by
  unfold upperLayerEconomicOptimization
  rw [ht, hp]
  have h24 : ¬(18 ≤ hour ∧ hour < 24) := by omega
  by_cases h6 : hour < 6
  · norm_num [h6, min_def, max_def]
  · norm_num [h6, h24, min_def, max_def]

/-- Witness for the amended claim C6 at noon over the field-free state. -/
theorem economic_setpoint_daytime_benign_w :
    upperLayerEconomicOptimization 12 stateNoFields 100 = 100 :=
  economic_setpoint_daytime_benign 12 stateNoFields (by norm_num) rfl rfl

/-- Claim C7, counterexample: `horizon = 0` lies outside `[1, 50]` and
`qWeight = rWeight = 0` are non-positive, yet validation returns the empty
error list — the truthiness guards silently accept every zero value, and
nothing is raised. -/
theorem validateParameters_accepts_zero_cex :
    validateParameters rawParamsZero = [] ∧ ¬((1:ℚ) ≤ 0 ∧ (0:ℚ) ≤ 50) := by
  constructor
  · simp [validateParameters, rawParamsZero]
  · norm_num

/-- Claim C7, amended: validation flags exactly the nonzero invalid
values: a nonzero horizon outside `[1, 50]`, a nonzero `qWeight ≤ 0`, and
a nonzero `rWeight ≤ 0` each contribute their message to the returned
error list (no exception is raised; the caller receives the list); zero
values are silently accepted. -/
theorem validateParameters_flags_nonzero_invalid :
    (∀ (p : RawParams) (h : ℚ), p.horizon = some h → h ≠ 0 →
      h < 1 ∨ 50 < h →
      "Horizon must be between 1 and 50" ∈ validateParameters p) ∧
    (∀ (p : RawParams) (q : ℚ), p.qWeight = some q → q ≠ 0 → q ≤ 0 →
      "Q weight must be positive" ∈ validateParameters p) ∧
    (∀ (p : RawParams) (r : ℚ), p.rWeight = some r → r ≠ 0 → r ≤ 0 →
      "R weight must be positive" ∈ validateParameters p) := by
  refine ⟨?_, ?_, ?_⟩
  · intro p h hh hne hcond
    have hcnd : h ≠ 0 ∧ (h < 1 ∨ 50 < h) := ⟨hne, hcond⟩
    unfold validateParameters
    rw [hh]
    simp [hcnd]
  · intro p q hq hne hcond
    have hcnd : q ≠ 0 ∧ q ≤ 0 := ⟨hne, hcond⟩
    unfold validateParameters
    rw [hq]
    simp [hcnd]
  · intro p r hr hne hcond
    have hcnd : r ≠ 0 ∧ r ≤ 0 := ⟨hne, hcond⟩
    unfold validateParameters
    rw [hr]
    simp [hcnd]

/-- Witness for the amended claim C7 at horizon 60, qWeight −1,
rWeight −2. -/
theorem validateParameters_flags_nonzero_invalid_w :
    "Horizon must be between 1 and 50" ∈ validateParameters rawParamsBad ∧
    "Q weight must be positive" ∈ validateParameters rawParamsBad ∧
    "R weight must be positive" ∈ validateParameters rawParamsBad :=
  ⟨validateParameters_flags_nonzero_invalid.1 rawParamsBad 60 rfl
      (by norm_num) (Or.inr (by norm_num)),
   validateParameters_flags_nonzero_invalid.2.1 rawParamsBad (-1) rfl
      (by norm_num) (by norm_num),
   validateParameters_flags_nonzero_invalid.2.2 rawParamsBad (-2) rfl
      (by norm_num) (by norm_num)⟩

/-- Claim C8, counterexample: the predictor input of the source is the
six-component normalized process vector only — it is not the ten-component
concatenation with context features the claim describes. -/
theorem normalizeInput_lacks_context_cex :
    normalizeInput nnInputSample ≠
      enhancedInputClaim nnInputSample ctxSample ∧
    (normalizeInput nnInputSample).length = 6 ∧
    (enhancedInputClaim nnInputSample ctxSample).length = 10 := by
  refine ⟨fun h => ?_, by simp [normalizeInput], by simp [enhancedInputClaim]⟩
  have hlen := congrArg List.length h
  simp [normalizeInput, enhancedInputClaim] at hlen

/-- Claim C8, amended: the predictor input vector consists of exactly the
six normalized process features `production/0.05`, `(temperature-60)/20`,
`(voltage-35)/10`, `(current-100)/100`, `(purity-99)/1`, `reference/100`,
each clamped to `[0, 1]`; no context features are appended. -/
theorem normalizeInput_six_clamped (i : NNInput) :
    normalizeInput i =
      [clamp01 (i.production / (5/100)),
       clamp01 ((i.temperature - 60) / 20),
       clamp01 ((i.voltage - 35) / 10),
       clamp01 ((i.current - 100) / 100),
       clamp01 ((i.purity - 99) / 1),
       clamp01 (i.reference / 100)] ∧
    (normalizeInput i).length = 6 ∧
    ∀ x ∈ normalizeInput i, 0 ≤ x ∧ x ≤ 1 := by
  refine ⟨rfl, rfl, ?_⟩
  intro x hx
  unfold normalizeInput at hx
  rcases List.mem_map.mp hx with ⟨y, -, rfl⟩
  exact clamp01_bounds y

/-- Witness for the amended claim C8: the first normalized feature of the
sample input is 3/5 and lies within the bounds. -/
theorem normalizeInput_six_clamped_w :
    (3/5 : ℚ) ∈ normalizeInput nnInputSample ∧
    (0 ≤ (3/5 : ℚ) ∧ (3/5 : ℚ) ≤ 1) :=
  ⟨by norm_num [normalizeInput, nnInputSample, clamp01, min_def, max_def],
   (normalizeInput_six_clamped nnInputSample).2.2 (3/5)
     (by norm_num [normalizeInput, nnInputSample, clamp01, min_def, max_def])⟩
